import Mathlib

/-!
Verification of the taskflow front-end payment workflow against its source.

Embedded source files:
* `src/frontend/src/utils/api.js` — `getAuthHeaders`, `paymentAPI.createCheckout`,
  `paymentAPI.getStatus`.
* `src/frontend/src/pages/OrganizationPage.js` — `handleUpgrade` (checkout initiator).
* `src/frontend/src/pages/PaymentSuccess.js` — the payment status poller
  (`useEffect` + `pollPaymentStatus`), modelled as a small-step event-loop machine.

JavaScript-semantics conventions used throughout, each justified where used:
* truthiness tests (`token ?`, `if (sessionId)`, `x || y`) treat `null`/`undefined`
  and the empty string as false;
* React function components re-create their local closures on every render; a
  `setTimeout(f, d)` schedules exactly the closure `f` that was in scope, with the
  render-time values of the `useState` constants it captured;
* React ignores `setState` calls made after the component instance is unmounted.
-/

/-! ### api.js -/

/-- HTTP request as assembled by the axios wrappers in `src/frontend/src/utils/api.js`.
The JSON body of a POST is modelled as an ordered list of key/value pairs, matching
the object literal the caller passes. -/
structure HttpRequest where
  method : String
  url : String
  body : Option (List (String × String))
  headers : List (String × String)
deriving DecidableEq

/-- Embedding of `getAuthHeaders` (api.js lines 6–9):
`const token = localStorage.getItem('token'); return token ? { Authorization: `Bearer <token>` } : {};`
`localStorage.getItem` yields `null` (here `none`) or the stored string. The guard
`token ?` is JavaScript truthiness, which is false for `null` and for the empty
string, so a stored empty-string token produces no Authorization header. -/
def getAuthHeaders (localStorage : String → Option String) : List (String × String) :=
  match localStorage "token" with
  | some token => if token = "" then [] else [("Authorization", "Bearer " ++ token)]
  | none => []

/-- Browser local storage holding only the `'token'` key (the only key api.js reads). -/
def storageWith (token : Option String) : String → Option String :=
  fun key => if key = "token" then token else none

/-- Embedding of `API_BASE = `<BACKEND_URL>/api`` (api.js lines 3–4). -/
def apiBase (backendUrl : String) : String := backendUrl ++ "/api"

namespace paymentAPI

/-- Embedding of `paymentAPI.createCheckout` (api.js line 35):
`axios.post(`<API_BASE>/payments/checkout`, data, { headers: getAuthHeaders() })`. -/
def createCheckout (backendUrl : String) (localStorage : String → Option String)
    (data : List (String × String)) : HttpRequest :=
  { method := "POST"
    url := apiBase backendUrl ++ "/payments/checkout"
    body := some data
    headers := getAuthHeaders localStorage }

/-- Embedding of `paymentAPI.getStatus` (api.js line 36):
`axios.get(`<API_BASE>/payments/status/<sessionId>`, { headers: getAuthHeaders() })`. -/
def getStatus (backendUrl : String) (localStorage : String → Option String)
    (sessionId : String) : HttpRequest :=
  { method := "GET"
    url := apiBase backendUrl ++ "/payments/status/" ++ sessionId
    body := none
    headers := getAuthHeaders localStorage }

end paymentAPI

/-! ### PaymentSuccess.js — the payment status poller -/

namespace PaymentSuccess

/-- Outcome of one `paymentAPI.getStatus` call as observed by `pollPaymentStatus`:
either the promise resolves with a response whose `data.payment_status` is the given
string, or it rejects (network/backend error) and control jumps to the `catch`. -/
inductive Resp where
  | ok (payment_status : String)
  | err
deriving DecidableEq

/-- State of the `PaymentSuccess` component plus the relevant event-loop bookkeeping.

`status` and `attempts` are the two `useState` cells (lines 12–13). `mounted` records
whether the component instance is still mounted. `timers` is the queue of pending
`setTimeout` callbacks (including the initial `useEffect` invocation); each entry is
the value of the `attempts` constant captured by the scheduled closure, because
`pollPaymentStatus` is a per-render closure over the render-time `attempts`.
`inflight` is the queue of outstanding `getStatus` requests, tagged the same way.
`queries` counts status queries issued; `toasts` the messages shown. -/
structure PollSt where
  status : String
  attempts : Nat
  mounted : Bool
  timers : List Nat
  inflight : List Nat
  queries : Nat
  toasts : List String
deriving DecidableEq

/-- Embedding of `const maxAttempts = 5` (PaymentSuccess.js line 23). -/
def maxAttempts : Nat := 5

/-- Embedding of the fixed inter-attempt delay `setTimeout(pollPaymentStatus, 2000)`
(PaymentSuccess.js line 36). -/
def pollDelayMs : Nat := 2000

/-- JavaScript truthiness of a nullable string: `null`/`undefined` and `""` are falsy. -/
def jsTruthyStr : Option String → Bool
  | some s => if s = "" then false else true
  | none => false

/-- A `setStatus` call made by the closure. React applies it only while the component
instance is mounted; after unmount the setter is a no-op. -/
def reactSetStatus (v : String) (s : PollSt) : PollSt :=
  if s.mounted then { s with status := v } else s

/-- The functional update `setAttempts(prev => prev + 1)` (line 35), subject to the
same unmounted-no-op rule. -/
def reactSetAttemptsSucc (s : PollSt) : PollSt :=
  if s.mounted then { s with attempts := s.attempts + 1 } else s

/-- A `toast.success`/`toast.error` call; the toast library is global, so the message
is recorded whether or not the component is still mounted. -/
def addToast (m : String) (s : PollSt) : PollSt :=
  { s with toasts := s.toasts ++ [m] }

/-- Embedding of the part of `pollPaymentStatus` (PaymentSuccess.js lines 25–44) that
runs once the awaited `getStatus` call settles, for the invocation whose closure
captured `attempts = captured`:

* `payment_status === 'paid'` → `setStatus('success'); toast.success(...); return`;
* otherwise `if (attempts < maxAttempts)` — here `attempts` is the closure-captured
  render constant `captured`, not the live state cell — then
  `setAttempts(prev => prev + 1)` and `setTimeout(pollPaymentStatus, 2000)`.
  The scheduled callback is the very closure that is executing (the `pollPaymentStatus`
  binding of the render that created it), so the timer entry carries the same
  `captured` value unchanged;
* else `setStatus('timeout'); toast.error(...)`;
* on rejection (`catch`): `setStatus('error'); toast.error(...)`. -/
def pollPaymentStatus (captured : Nat) (r : Resp) (s : PollSt) : PollSt :=
  match r with
  | .ok payment_status =>
      if payment_status = "paid" then
        addToast "Payment successful!" (reactSetStatus "success" s)
      else if captured < maxAttempts then
        { reactSetAttemptsSucc s with timers := s.timers ++ [captured] }
      else
        addToast "Payment verification timed out. Please contact support."
          (reactSetStatus "timeout" s)
  | .err =>
      addToast "Failed to verify payment status" (reactSetStatus "error" s)

/-- Events the host event loop can deliver to the poller:
a pending `setTimeout` callback runs (`fire`), an outstanding `getStatus` request
settles (`resolve`), or the component is unmounted by navigation (`unmount`). -/
inductive Ev where
  | fire
  | resolve (r : Resp)
  | unmount
deriving DecidableEq

/-- One event-loop step.

* `fire`: the oldest pending callback runs; the invocation immediately issues a
  `getStatus` query (line 26) and suspends at the `await`, so the captured value
  moves from `timers` to `inflight` and `queries` increments.
* `resolve r`: the oldest outstanding query settles with `r` and the suspended
  invocation resumes as `pollPaymentStatus`.
* `unmount`: the component is torn down. The `useEffect` (lines 16–20) returns no
  cleanup function, so pending timers are NOT cleared — only `mounted` changes. -/
def step (e : Ev) (s : PollSt) : PollSt :=
  match e with
  | .fire =>
      match s.timers with
      | [] => s
      | c :: rest =>
          { s with timers := rest, inflight := s.inflight ++ [c], queries := s.queries + 1 }
  | .resolve r =>
      match s.inflight with
      | [] => s
      | c :: rest => pollPaymentStatus c r { s with inflight := rest }
  | .unmount => { s with mounted := false }

/-- Run a sequence of event-loop steps. -/
def exec (evs : List Ev) (s : PollSt) : PollSt :=
  evs.foldl (fun t e => step e t) s

/-- State right after mount. `useEffect` (lines 16–20) calls `pollPaymentStatus()`
when `sessionId` is truthy; that initial invocation is modelled as one queued
callback whose closure captured the first render's `attempts = 0`. -/
def init (sessionId : Option String) : PollSt :=
  { status := "checking"
    attempts := 0
    mounted := true
    timers := if jsTruthyStr sessionId then [0] else []
    inflight := []
    queries := 0
    toasts := [] }

/-- Event trace of a session that reports not-paid on every query: the pending
callback fires and its query resolves `unpaid`, `n` times over. -/
def unpaidEvents : Nat → List Ev
  | 0 => []
  | n + 1 => unpaidEvents n ++ [.fire, .resolve (.ok "unpaid")]

/-- Number of scheduled-or-outstanding poll activities. -/
def outstanding (s : PollSt) : Nat := s.timers.length + s.inflight.length

end PaymentSuccess

/-! ### OrganizationPage.js — the checkout initiator -/

namespace OrganizationPage

/-- Outcome of the awaited `paymentAPI.createCheckout` call inside `handleUpgrade`:
the promise resolves with a response whose `data.url` is the given value (`none`
models a success payload in which the `url` field is absent, i.e. `undefined`), or
it rejects and `error.response?.data?.detail` is the given optional string. -/
inductive CheckoutResult where
  | ok (url : Option String)
  | err (detail : Option String)
deriving DecidableEq

/-- String coercion applied by the `window.location.href` setter: assigning a value
runs JavaScript `ToString`, and `ToString(undefined)` is the string `"undefined"`,
which the browser then resolves as a (bogus) relative URL and navigates to. -/
def jsStringCoerce : Option String → String
  | some s => s
  | none => "undefined"

/-- JavaScript `v || d`: falls through to `d` when `v` is falsy, i.e. absent
(`undefined`/`null`) or the empty string. Models
`error.response?.data?.detail || 'Failed to create checkout session'` (line 72). -/
def jsOrDefault (v : Option String) (d : String) : String :=
  match v with
  | some s => if s = "" then d else s
  | none => d

/-- The `OrganizationPage` component state touched (or required untouched) by the
upgrade flow: the `useState` cells of lines 19–22 that `handleUpgrade` can reach,
the toast log, and `window.location.href` (`none` while no navigation has been
performed). -/
structure OrgPageSt where
  selectedPackage : String
  loading : Bool
  inviteDialogOpen : Bool
  paymentDialogOpen : Bool
  toasts : List String
  locationHref : Option String
deriving DecidableEq

/-- Result of one `handleUpgrade` run: the HTTP requests it issued (in order) and
the page state afterwards. -/
structure UpgradeOutcome where
  requests : List HttpRequest
  page : OrgPageSt
deriving DecidableEq

/-- The ids of the packages offered by the upgrade dialog
(OrganizationPage.js lines 80–84); `selectedPackage` is initialised to `'starter'`
(line 22) and only ever set to one of these ids (line 259). -/
def packages : List String := ["starter", "professional", "enterprise"]

/-- The request `handleUpgrade` sends (OrganizationPage.js lines 66–69):
`paymentAPI.createCheckout({ package_id: selectedPackage, org_id: orgId })`. -/
def upgradeRequest (backendUrl : String) (localStorage : String → Option String)
    (orgId : String) (s : OrgPageSt) : HttpRequest :=
  paymentAPI.createCheckout backendUrl localStorage
    [("package_id", s.selectedPackage), ("org_id", orgId)]

/-- Continuation of `handleUpgrade` after the awaited `createCheckout` call
settles — the rest of the `try` block or the `catch` block:

* on resolution, `window.location.href = response.data.url` (line 70) — note there
  is no check that `url` is present, and no toast on this path;
* on rejection, `toast.error(error.response?.data?.detail || 'Failed to create
  checkout session')` (line 72) and nothing else: no navigation, no other state
  change, no retry. -/
def handleUpgradeSettle (req : HttpRequest) (res : CheckoutResult)
    (s : OrgPageSt) : UpgradeOutcome :=
  match res with
  | .ok url =>
      { requests := [req], page := { s with locationHref := some (jsStringCoerce url) } }
  | .err detail =>
      { requests := [req]
        page := { s with toasts := s.toasts ++ [jsOrDefault detail "Failed to create checkout session"] } }

/-- Embedding of `handleUpgrade` (OrganizationPage.js lines 64–74), parametrised by
the backend's behaviour `respond`: it issues the single request of `upgradeRequest`,
awaits the outcome, and hands it to `handleUpgradeSettle`. Exactly one request is
issued per initiation — there is no retry loop. -/
def handleUpgrade (backendUrl : String) (localStorage : String → Option String)
    (orgId : String) (respond : HttpRequest → CheckoutResult)
    (s : OrgPageSt) : UpgradeOutcome :=
  handleUpgradeSettle (upgradeRequest backendUrl localStorage orgId s)
    (respond (upgradeRequest backendUrl localStorage orgId s)) s

end OrganizationPage

/-! ### Helper lemmas about the poller machine -/

namespace PaymentSuccess

@[simp] lemma reactSetStatus_timers (v : String) (s : PollSt) :
    (reactSetStatus v s).timers = s.timers := by
  unfold reactSetStatus; split <;> rfl

@[simp] lemma reactSetStatus_inflight (v : String) (s : PollSt) :
    (reactSetStatus v s).inflight = s.inflight := by
  unfold reactSetStatus; split <;> rfl

@[simp] lemma reactSetStatus_queries (v : String) (s : PollSt) :
    (reactSetStatus v s).queries = s.queries := by
  unfold reactSetStatus; split <;> rfl

@[simp] lemma reactSetAttemptsSucc_timers (s : PollSt) :
    (reactSetAttemptsSucc s).timers = s.timers := by
  unfold reactSetAttemptsSucc; split <;> rfl

@[simp] lemma reactSetAttemptsSucc_inflight (s : PollSt) :
    (reactSetAttemptsSucc s).inflight = s.inflight := by
  unfold reactSetAttemptsSucc; split <;> rfl

@[simp] lemma reactSetAttemptsSucc_queries (s : PollSt) :
    (reactSetAttemptsSucc s).queries = s.queries := by
  unfold reactSetAttemptsSucc; split <;> rfl

@[simp] lemma addToast_timers (m : String) (s : PollSt) :
    (addToast m s).timers = s.timers := rfl

@[simp] lemma addToast_inflight (m : String) (s : PollSt) :
    (addToast m s).inflight = s.inflight := rfl

@[simp] lemma addToast_queries (m : String) (s : PollSt) :
    (addToast m s).queries = s.queries := rfl

/-- Resuming an invocation never issues a query by itself: scheduling goes through
the timer queue. -/
lemma pollPaymentStatus_queries (c : Nat) (r : Resp) (s : PollSt) :
    (pollPaymentStatus c r s).queries = s.queries := by
  unfold pollPaymentStatus
  cases r with
  | ok ps => by_cases hp : ps = "paid" <;> by_cases hc : c < maxAttempts <;> simp [hp, hc]
  | err => simp

lemma exec_cons (e : Ev) (evs : List Ev) (s : PollSt) :
    exec (e :: evs) s = exec evs (step e s) := rfl

lemma exec_append (l₁ l₂ : List Ev) (s : PollSt) :
    exec (l₁ ++ l₂) s = exec l₂ (exec l₁ s) := by
  simp [exec, List.foldl_append]

/-- Closed form of a run in which every query answers not-paid. The rescheduled
callback is always the first render's closure, whose captured `attempts` is `0`;
`0 < maxAttempts` therefore holds at every attempt and the machine re-enters the
polling loop forever: after `n` not-paid rounds it has issued `n` queries, is still
`checking`, and still has a pending callback. -/
lemma unpaid_exec (sid : String) (hsid : sid ≠ "") (n : Nat) :
    exec (unpaidEvents n) (init (some sid)) =
      { status := "checking", attempts := n, mounted := true, timers := [0],
        inflight := [], queries := n, toasts := [] } := by
  induction n with
  | zero =>
      simp [unpaidEvents, exec, init, jsTruthyStr, hsid]
  | succ n ih =>
      rw [unpaidEvents, exec_append, ih]
      rfl

/-- Any step keeps the count of scheduled-or-outstanding poll activities at `≤ 1`:
the handler schedules at most one follow-up callback, and only in the branch that
consumed the one outstanding query. -/
lemma outstanding_step (e : Ev) (s : PollSt) (h : outstanding s ≤ 1) :
    outstanding (step e s) ≤ 1 := by
  cases e with
  | unmount => simpa [step, outstanding] using h
  | fire =>
      cases ht : s.timers with
      | nil => simpa [step, ht] using h
      | cons c rest =>
          simp [outstanding, ht] at h
          simp [step, ht, outstanding]
          omega
  | resolve r =>
      cases hi : s.inflight with
      | nil => simpa [step, hi] using h
      | cons c rest =>
          simp [outstanding, hi] at h
          cases r with
          | err =>
              simp [step, hi, pollPaymentStatus, outstanding]
              omega
          | ok ps =>
              by_cases hp : ps = "paid"
              · simp [step, hi, pollPaymentStatus, hp, outstanding]
                omega
              · by_cases hc : c < maxAttempts
                · simp [step, hi, pollPaymentStatus, hp, hc, outstanding]
                  omega
                · simp [step, hi, pollPaymentStatus, hp, hc, outstanding]
                  omega

lemma outstanding_exec (evs : List Ev) (s : PollSt) (h : outstanding s ≤ 1) :
    outstanding (exec evs s) ≤ 1 := by
  induction evs generalizing s with
  | nil => exact h
  | cons e evs ih => exact ih _ (outstanding_step e s h)

lemma outstanding_init (sid : Option String) : outstanding (init sid) ≤ 1 := by
  cases sid with
  | none => simp [outstanding, init, jsTruthyStr]
  | some s =>
      simp only [outstanding, init, jsTruthyStr]
      split <;> simp

/-- A step changes the query count only by running a pending callback, which
requires a nonempty timer queue. -/
lemma queries_change_timers (e : Ev) (s : PollSt)
    (h : (step e s).queries ≠ s.queries) : s.timers ≠ [] := by
  cases e with
  | unmount => exact absurd rfl h
  | fire =>
      cases ht : s.timers with
      | nil => rw [step, ht] at h; exact absurd rfl h
      | cons c rest => simp [ht]
  | resolve r =>
      cases hi : s.inflight with
      | nil => rw [step, hi] at h; exact absurd rfl h
      | cons c rest =>
          rw [step, hi] at h
          rw [pollPaymentStatus_queries] at h
          exact absurd rfl h

/-- A poller state with nothing scheduled and nothing in flight is inert: no step
changes the query count, the status, or the toast log, and nothing new gets
scheduled. -/
lemma step_settled (e : Ev) (s : PollSt) (h : s.timers = [] ∧ s.inflight = []) :
    (step e s).timers = [] ∧ (step e s).inflight = [] ∧
      (step e s).queries = s.queries ∧ (step e s).status = s.status ∧
      (step e s).toasts = s.toasts := by
  obtain ⟨h1, h2⟩ := h
  cases e with
  | fire => simp [step, h1, h2]
  | resolve r => simp [step, h1, h2]
  | unmount => simp [step, h1, h2]

lemma exec_settled (evs : List Ev) (s : PollSt) (h : s.timers = [] ∧ s.inflight = []) :
    (exec evs s).queries = s.queries ∧ (exec evs s).status = s.status ∧
      (exec evs s).toasts = s.toasts := by
  induction evs generalizing s with
  | nil => exact ⟨rfl, rfl, rfl⟩
  | cons e evs ih =>
      obtain ⟨t1, t2, hq, hst, hto⟩ := step_settled e s h
      rw [exec_cons]
      obtain ⟨hq', hst', hto'⟩ := ih (step e s) ⟨t1, t2⟩
      exact ⟨hq'.trans hq, hst'.trans hst, hto'.trans hto⟩

end PaymentSuccess

/-! ### Claim theorems -/

open PaymentSuccess OrganizationPage

/-- C1: the claim says a session that is never paid gets exactly 6 status queries
and then the terminal `timeout` state. The code disagrees: the re-scheduled
callback is always the first render's `pollPaymentStatus` closure, whose captured
`attempts` constant is permanently `0`, so the `attempts < maxAttempts` test never
fails. After `n` not-paid rounds — for every `n`, including 7 and beyond — the
poller has issued `n` queries, is still in `checking` (never `timeout`), and still
has a pending callback scheduled. -/
theorem c1_unbounded_polling_no_timeout (sid : String) (hsid : sid ≠ "") (n : Nat) :
    (exec (unpaidEvents n) (init (some sid))).queries = n ∧
    (exec (unpaidEvents n) (init (some sid))).status = "checking" ∧
    (exec (unpaidEvents n) (init (some sid))).timers = [0] := by
  rw [unpaid_exec sid hsid n]
  exact ⟨rfl, rfl, rfl⟩

/-- Witness for C1 at a concrete session and the claim's own bound: after 7
not-paid rounds the code has issued 7 queries and is still `checking`. -/
theorem c1_unbounded_polling_no_timeout_witness :
    (exec (unpaidEvents 7) (init (some "cs_live_1"))).queries = 7 ∧
    (exec (unpaidEvents 7) (init (some "cs_live_1"))).status = "checking" ∧
    (exec (unpaidEvents 7) (init (some "cs_live_1"))).timers = [0] :=
  c1_unbounded_polling_no_timeout "cs_live_1" (by decide) 7

/-- C2: the claim says a delayed re-query pending at teardown never executes. The
`useEffect` registers no cleanup, so the `setTimeout` scheduled after a first
not-paid response survives the unmount: `mounted` is false, yet the timer entry is
still queued, firing it issues a second status query, and a further not-paid answer
re-schedules yet another callback — the defunct poller keeps polling. -/
theorem c2_pending_query_fires_after_unmount :
    (exec [.fire, .resolve (.ok "unpaid"), .unmount] (init (some "cs_1"))).mounted = false ∧
    (exec [.fire, .resolve (.ok "unpaid"), .unmount] (init (some "cs_1"))).timers = [0] ∧
    (exec [.fire, .resolve (.ok "unpaid"), .unmount, .fire] (init (some "cs_1"))).queries = 2 ∧
    (exec [.fire, .resolve (.ok "unpaid"), .unmount, .fire, .resolve (.ok "unpaid")]
        (init (some "cs_1"))).timers = [0] := by
  decide

/-- C5: the poller holds at most one in-flight status query at any reachable
state, and a step can issue a new query only when no query is in flight — query
N+1 starts only after query N's outcome was observed. -/
theorem c5_single_inflight_query (sid : Option String) (evs : List Ev) :
    (exec evs (init sid)).inflight.length ≤ 1 ∧
    ∀ e : Ev, (step e (exec evs (init sid))).queries ≠ (exec evs (init sid)).queries →
      (exec evs (init sid)).inflight = [] := by
  have hinv : outstanding (exec evs (init sid)) ≤ 1 :=
    outstanding_exec evs _ (outstanding_init sid)
  unfold outstanding at hinv
  refine ⟨by omega, ?_⟩
  intro e he
  have ht := queries_change_timers e _ he
  have hlen : (exec evs (init sid)).inflight.length = 0 := by
    cases hh : (exec evs (init sid)).timers with
    | nil => exact absurd hh ht
    | cons a t => rw [hh] at hinv; simp at hinv; omega
  exact List.length_eq_zero.mp hlen

/-- Witness for C5: right after mount the pending initial callback would issue a
query, and indeed nothing is in flight there. -/
theorem c5_single_inflight_query_witness :
    (exec [] (init (some "cs_w5"))).inflight = [] ∧
    (exec [] (init (some "cs_w5"))).inflight.length ≤ 1 :=
  ⟨(c5_single_inflight_query (some "cs_w5") []).2 .fire (by decide),
   (c5_single_inflight_query (some "cs_w5") []).1⟩

/-- C8: a session whose first query answers `paid` reaches `success` after exactly
one query, the success toast is shown, and no continuation of the run ever issues
another query or leaves `success`. -/
theorem c8_paid_first_query (sid : String) (hsid : sid ≠ "") (evs : List Ev) :
    (exec [.fire, .resolve (.ok "paid")] (init (some sid))).status = "success" ∧
    (exec [.fire, .resolve (.ok "paid")] (init (some sid))).queries = 1 ∧
    (exec [.fire, .resolve (.ok "paid")] (init (some sid))).toasts = ["Payment successful!"] ∧
    (exec evs (exec [.fire, .resolve (.ok "paid")] (init (some sid)))).queries = 1 ∧
    (exec evs (exec [.fire, .resolve (.ok "paid")] (init (some sid)))).status = "success" := by
  have hrun : exec [.fire, .resolve (.ok "paid")] (init (some sid)) =
      { status := "success", attempts := 0, mounted := true, timers := [],
        inflight := [], queries := 1, toasts := ["Payment successful!"] } := by
    simp [exec, init, jsTruthyStr, hsid, step, pollPaymentStatus, reactSetStatus, addToast]
  rw [hrun]
  obtain ⟨hq, hst, -⟩ := exec_settled evs
    { status := "success", attempts := 0, mounted := true, timers := [],
      inflight := [], queries := 1, toasts := ["Payment successful!"] } ⟨rfl, rfl⟩
  exact ⟨rfl, rfl, rfl, hq, hst⟩

/-- Witness for C8 at a concrete session, continued by an unmount and a spurious
timer event: the count stays at one query and the state stays `success`. -/
theorem c8_paid_first_query_witness :
    (exec [.fire, .resolve (.ok "paid")] (init (some "cs_w8"))).status = "success" ∧
    (exec [.fire, .resolve (.ok "paid")] (init (some "cs_w8"))).queries = 1 ∧
    (exec [.fire, .resolve (.ok "paid")] (init (some "cs_w8"))).toasts = ["Payment successful!"] ∧
    (exec [.unmount, .fire] (exec [.fire, .resolve (.ok "paid")] (init (some "cs_w8")))).queries = 1 ∧
    (exec [.unmount, .fire] (exec [.fire, .resolve (.ok "paid")] (init (some "cs_w8")))).status = "success" :=
  c8_paid_first_query "cs_w8" (by decide) [.unmount, .fire]

/-- C9: a status query that fails — on any attempt, i.e. after `n` not-paid rounds
for every `n` (the first attempt is `n = 0`) — sends the poller straight to the
terminal `error` state with the failure toast; the failing query is the `n + 1`-st
and last, no retry is scheduled, and no continuation of the run issues another
query or leaves `error`. -/
theorem c9_error_any_attempt_terminal (sid : String) (hsid : sid ≠ "") (n : Nat)
    (evs : List Ev) :
    (exec (unpaidEvents n ++ [.fire, .resolve .err]) (init (some sid))).status = "error" ∧
    (exec (unpaidEvents n ++ [.fire, .resolve .err]) (init (some sid))).queries = n + 1 ∧
    (exec (unpaidEvents n ++ [.fire, .resolve .err]) (init (some sid))).timers = [] ∧
    (exec (unpaidEvents n ++ [.fire, .resolve .err]) (init (some sid))).toasts =
      ["Failed to verify payment status"] ∧
    (exec evs (exec (unpaidEvents n ++ [.fire, .resolve .err]) (init (some sid)))).queries =
      n + 1 ∧
    (exec evs (exec (unpaidEvents n ++ [.fire, .resolve .err]) (init (some sid)))).status =
      "error" := by
  have hrun : exec (unpaidEvents n ++ [.fire, .resolve .err]) (init (some sid)) =
      { status := "error", attempts := n, mounted := true, timers := [],
        inflight := [], queries := n + 1, toasts := ["Failed to verify payment status"] } := by
    rw [exec_append, unpaid_exec sid hsid n]
    rfl
  rw [hrun]
  obtain ⟨hq, hst, -⟩ := exec_settled evs
    { status := "error", attempts := n, mounted := true, timers := [],
      inflight := [], queries := n + 1, toasts := ["Failed to verify payment status"] } ⟨rfl, rfl⟩
  exact ⟨rfl, rfl, rfl, rfl, hq, hst⟩

/-- Witness for C9 at a concrete session with the error on the third query
(`n = 2` not-paid rounds first), continued by further events. -/
theorem c9_error_any_attempt_terminal_witness :
    (exec (unpaidEvents 2 ++ [.fire, .resolve .err]) (init (some "cs_w9"))).status = "error" ∧
    (exec (unpaidEvents 2 ++ [.fire, .resolve .err]) (init (some "cs_w9"))).queries = 2 + 1 ∧
    (exec (unpaidEvents 2 ++ [.fire, .resolve .err]) (init (some "cs_w9"))).timers = [] ∧
    (exec (unpaidEvents 2 ++ [.fire, .resolve .err]) (init (some "cs_w9"))).toasts =
      ["Failed to verify payment status"] ∧
    (exec [.fire, .unmount] (exec (unpaidEvents 2 ++ [.fire, .resolve .err])
        (init (some "cs_w9")))).queries = 2 + 1 ∧
    (exec [.fire, .unmount] (exec (unpaidEvents 2 ++ [.fire, .resolve .err])
        (init (some "cs_w9")))).status = "error" :=
  c9_error_any_attempt_terminal "cs_w9" (by decide) 2 [.fire, .unmount]

/-- C3 counterexample: the claim names the body fields `plan_id` and
`organization_id`, but at a concrete initiation (professional plan, org-42) the
request body the code sends carries the fields `package_id` and `org_id`. -/
theorem c3_checkout_body_counterexample :
    (handleUpgrade "http://backend" (storageWith none) "org-42" (fun _ => .err none)
        { selectedPackage := "professional", loading := false, inviteDialogOpen := false,
          paymentDialogOpen := true, toasts := [], locationHref := none }).requests.map
        HttpRequest.body ≠ [some [("plan_id", "professional"), ("organization_id", "org-42")]] ∧
    (handleUpgrade "http://backend" (storageWith none) "org-42" (fun _ => .err none)
        { selectedPackage := "professional", loading := false, inviteDialogOpen := false,
          paymentDialogOpen := true, toasts := [], locationHref := none }).requests.map
        HttpRequest.body = [some [("package_id", "professional"), ("org_id", "org-42")]] := by
  decide

/-- C3 (amended): every checkout initiation sends exactly one POST whose body is
exactly `{ package_id, org_id }`, with `package_id` the user-selected plan id from
the enumeration offered by the dialog and `org_id` the current organization's id. -/
theorem c3_checkout_body_fields (backendUrl : String) (localStorage : String → Option String)
    (orgId : String) (respond : HttpRequest → CheckoutResult) (s : OrgPageSt)
    (h : s.selectedPackage ∈ packages) :
    (handleUpgrade backendUrl localStorage orgId respond s).requests.map HttpRequest.body =
      [some [("package_id", s.selectedPackage), ("org_id", orgId)]] ∧
    (handleUpgrade backendUrl localStorage orgId respond s).requests.map HttpRequest.method =
      ["POST"] := by
  unfold handleUpgrade
  cases respond (upgradeRequest backendUrl localStorage orgId s) <;>
    simp [handleUpgradeSettle, upgradeRequest, paymentAPI.createCheckout]

/-- Witness for C3 (amended) at a concrete initiation. -/
theorem c3_checkout_body_fields_witness :
    (handleUpgrade "http://backend" (storageWith (some "tok")) "org-42"
        (fun _ => .ok (some "https://pay.example/c/cs_1"))
        { selectedPackage := "professional", loading := false, inviteDialogOpen := false,
          paymentDialogOpen := true, toasts := [], locationHref := none }).requests.map
        HttpRequest.body = [some [("package_id", "professional"), ("org_id", "org-42")]] ∧
    (handleUpgrade "http://backend" (storageWith (some "tok")) "org-42"
        (fun _ => .ok (some "https://pay.example/c/cs_1"))
        { selectedPackage := "professional", loading := false, inviteDialogOpen := false,
          paymentDialogOpen := true, toasts := [], locationHref := none }).requests.map
        HttpRequest.method = ["POST"] :=
  c3_checkout_body_fields "http://backend" (storageWith (some "tok")) "org-42"
    (fun _ => .ok (some "https://pay.example/c/cs_1"))
    { selectedPackage := "professional", loading := false, inviteDialogOpen := false,
      paymentDialogOpen := true, toasts := [], locationHref := none } (by decide)

/-- C4: the claim says a success response without a usable redirect URL surfaces a
user-visible error and performs no navigation. The code checks nothing before
`window.location.href = response.data.url`: with a success payload whose `url`
field is absent, `undefined` is assigned, the href setter coerces it to the string
`"undefined"` and navigates there, and no toast is shown. -/
theorem c4_missing_url_silent_navigation :
    (handleUpgrade "http://backend" (storageWith (some "tok")) "org-42" (fun _ => .ok none)
        { selectedPackage := "professional", loading := false, inviteDialogOpen := false,
          paymentDialogOpen := true, toasts := [], locationHref := none }).page.locationHref =
      some "undefined" ∧
    (handleUpgrade "http://backend" (storageWith (some "tok")) "org-42" (fun _ => .ok none)
        { selectedPackage := "professional", loading := false, inviteDialogOpen := false,
          paymentDialogOpen := true, toasts := [], locationHref := none }).page.toasts = [] := by
  decide

/-- C6: a checkout initiation whose backend call resolves with a URL navigates the
browser to exactly that string, unmodified, and shows no toast. -/
theorem c6_navigates_to_exact_url (backendUrl : String) (localStorage : String → Option String)
    (orgId u : String) (respond : HttpRequest → CheckoutResult) (s : OrgPageSt)
    (h : respond (upgradeRequest backendUrl localStorage orgId s) = .ok (some u)) :
    (handleUpgrade backendUrl localStorage orgId respond s).page.locationHref = some u ∧
    (handleUpgrade backendUrl localStorage orgId respond s).page.toasts = s.toasts := by
  unfold handleUpgrade
  rw [h]
  exact ⟨rfl, rfl⟩

/-- Witness for C6: the spec's own test vector, professional plan for org-42. -/
theorem c6_navigates_to_exact_url_witness :
    (handleUpgrade "http://backend" (storageWith (some "tok")) "org-42"
        (fun _ => .ok (some "https://pay.example/c/cs_1"))
        { selectedPackage := "professional", loading := false, inviteDialogOpen := false,
          paymentDialogOpen := true, toasts := [], locationHref := none }).page.locationHref =
      some "https://pay.example/c/cs_1" ∧
    (handleUpgrade "http://backend" (storageWith (some "tok")) "org-42"
        (fun _ => .ok (some "https://pay.example/c/cs_1"))
        { selectedPackage := "professional", loading := false, inviteDialogOpen := false,
          paymentDialogOpen := true, toasts := [], locationHref := none }).page.toasts = [] :=
  c6_navigates_to_exact_url "http://backend" (storageWith (some "tok")) "org-42"
    "https://pay.example/c/cs_1" (fun _ => .ok (some "https://pay.example/c/cs_1"))
    { selectedPackage := "professional", loading := false, inviteDialogOpen := false,
      paymentDialogOpen := true, toasts := [], locationHref := none } rfl

/-- C7: a checkout initiation whose backend call rejects appends exactly one error
toast (the backend detail, or the generic message when the detail is absent or
empty) and changes nothing else: no navigation, every other page field unchanged,
and exactly one request issued — no automatic retry. -/
theorem c7_error_leaves_page_unchanged (backendUrl : String)
    (localStorage : String → Option String) (orgId : String) (d : Option String)
    (respond : HttpRequest → CheckoutResult) (s : OrgPageSt)
    (h : respond (upgradeRequest backendUrl localStorage orgId s) = .err d) :
    (handleUpgrade backendUrl localStorage orgId respond s).page =
      { s with toasts := s.toasts ++ [jsOrDefault d "Failed to create checkout session"] } ∧
    (handleUpgrade backendUrl localStorage orgId respond s).page.locationHref = s.locationHref ∧
    (handleUpgrade backendUrl localStorage orgId respond s).requests.length = 1 := by
  unfold handleUpgrade
  rw [h]
  exact ⟨rfl, rfl, rfl⟩

/-- Witness for C7 with a concrete backend-reported detail message. -/
theorem c7_error_leaves_page_unchanged_witness :
    (handleUpgrade "http://backend" (storageWith (some "tok")) "org-42"
        (fun _ => .err (some "Organization already has an active subscription"))
        { selectedPackage := "professional", loading := false, inviteDialogOpen := false,
          paymentDialogOpen := true, toasts := [], locationHref := none }).page =
      { selectedPackage := "professional", loading := false, inviteDialogOpen := false,
        paymentDialogOpen := true,
        toasts := ["Organization already has an active subscription"], locationHref := none } ∧
    (handleUpgrade "http://backend" (storageWith (some "tok")) "org-42"
        (fun _ => .err (some "Organization already has an active subscription"))
        { selectedPackage := "professional", loading := false, inviteDialogOpen := false,
          paymentDialogOpen := true, toasts := [], locationHref := none }).page.locationHref =
      none ∧
    (handleUpgrade "http://backend" (storageWith (some "tok")) "org-42"
        (fun _ => .err (some "Organization already has an active subscription"))
        { selectedPackage := "professional", loading := false, inviteDialogOpen := false,
          paymentDialogOpen := true, toasts := [], locationHref := none }).requests.length = 1 :=
  c7_error_leaves_page_unchanged "http://backend" (storageWith (some "tok")) "org-42"
    (some "Organization already has an active subscription")
    (fun _ => .err (some "Organization already has an active subscription"))
    { selectedPackage := "professional", loading := false, inviteDialogOpen := false,
      paymentDialogOpen := true, toasts := [], locationHref := none } rfl

/-- C10 counterexample: the claim promises an Authorization header whenever a token
is stored under `'token'`. With the empty string stored — a value that exists in
storage — the truthiness test `token ?` fails and the code sends no Authorization
header at all. -/
theorem c10_auth_header_counterexample :
    (paymentAPI.createCheckout "http://backend" (storageWith (some "")) []).headers = [] ∧
    (paymentAPI.createCheckout "http://backend" (storageWith (some "")) []).headers ≠
      [("Authorization", "Bearer " ++ "")] := by
  decide

/-- C10 (amended): both payment API operations send the Authorization header
`Bearer <token>` exactly when a non-empty token is stored under `'token'`, and no
Authorization header when no token is stored (or, per the counterexample, when the
stored token is the empty string). -/
theorem c10_auth_header (backendUrl : String) (body : List (String × String))
    (sid t : String) (h : t ≠ "") :
    (paymentAPI.createCheckout backendUrl (storageWith (some t)) body).headers =
      [("Authorization", "Bearer " ++ t)] ∧
    (paymentAPI.getStatus backendUrl (storageWith (some t)) sid).headers =
      [("Authorization", "Bearer " ++ t)] ∧
    (paymentAPI.createCheckout backendUrl (storageWith none) body).headers = [] ∧
    (paymentAPI.getStatus backendUrl (storageWith none) sid).headers = [] := by
  simp [paymentAPI.createCheckout, paymentAPI.getStatus, getAuthHeaders, storageWith, h]

/-- Witness for C10 (amended) at a concrete token and session. -/
theorem c10_auth_header_witness :
    (paymentAPI.createCheckout "http://backend" (storageWith (some "tok_1"))
        [("package_id", "starter"), ("org_id", "org-42")]).headers =
      [("Authorization", "Bearer " ++ "tok_1")] ∧
    (paymentAPI.getStatus "http://backend" (storageWith (some "tok_1")) "cs_1").headers =
      [("Authorization", "Bearer " ++ "tok_1")] ∧
    (paymentAPI.createCheckout "http://backend" (storageWith none)
        [("package_id", "starter"), ("org_id", "org-42")]).headers = [] ∧
    (paymentAPI.getStatus "http://backend" (storageWith none) "cs_1").headers = [] :=
  c10_auth_header "http://backend" [("package_id", "starter"), ("org_id", "org-42")]
    "cs_1" "tok_1" (by decide)
